/-
Verification of src/training_plans_section.py (Gravel God training-plans
section component) against its specification.

The Python module has two functions:

* generate_training_plans_section (the Renderer): three strings in, one HTML
  string out, built by interpolating into a fixed f-string template and
  calling str.strip() on the result;
* generate_training_plans_html (the Adapter): a nested race-data record in,
  the Renderer's output on three values derived by fallback chains.

The template and stylesheet literals of the source are reproduced here
byte for byte.  Each multi-kilobyte literal is split into a concatenation
of short string literals (concatenation only, preserving every byte and
their order) because single huge literals do not kernel-reduce within
stack limits; the source builds the very same string as one f-string.
-/

import Mathlib

set_option maxRecDepth 8000

/-- Python's ASCII whitespace set, as used by str.strip(). -/
def isPySpace (ch : Char) : Bool :=
  ch == ' ' || ch == '\t' || ch == '\n' || ch == '\r' || ch == '\x0b' || ch == '\x0c'

/-- Model of Python's str.strip(): drop leading and trailing whitespace. -/
def pythonStrip (str : String) : String :=
  ⟨((str.data.dropWhile isPySpace).reverse.dropWhile isPySpace).reverse⟩

/-- Model of Python's str.lower() (case mapping, characterwise). -/
def pyLower (str : String) : String := ⟨str.data.map Char.toLower⟩

/-- Truthiness of a Python value that is either a string or None:
None and the empty string are falsy. -/
def pyTruthy : Option String → Bool
  | none => false
  | some str => !(str == "")

def cssPart00 : String :=
  "<style>\n/* Training Plans Section - On-Demand Model */\n.gg-training-section \x7b\n  max-width: 1000px;\n  margin: 0 auto;\n  padding: 48px 24px;\n\x7d\n\n.gg-training-header \x7b\n  text-align: center;\n  margin-bottom: 48px;\n\x7d\n\n"

def cssPart01 : String :=
  ".gg-training-badge \x7b\n  display: inline-block;\n  background: #F4D03F;\n  color: #2c2c2c;\n  padding: 8px 20px;\n  font-family: 'Sometype Mono', monospace;\n  font-size: 13px;\n  font-weight: 700;\n  text-transform: uppercase;\n"

def cssPart02 : String :=
  "  letter-spacing: 0.15em;\n  border: 3px solid #2c2c2c;\n  box-shadow: 4px 4px 0 #2c2c2c;\n  margin-bottom: 20px;\n\x7d\n\n.gg-training-title \x7b\n  font-family: 'Sometype Mono', monospace;\n  font-size: 36px;\n  font-weight: 700;\n"

def cssPart03 : String :=
  "  text-transform: uppercase;\n  color: #2c2c2c;\n  margin-bottom: 16px;\n  letter-spacing: 0.02em;\n\x7d\n\n.gg-training-subtitle \x7b\n  font-family: 'Sometype Mono', monospace;\n  font-size: 16px;\n  color: #8C7568;\n  max-width: 650px;\n"

def cssPart04 : String :=
  "  margin: 0 auto;\n  line-height: 1.6;\n\x7d\n\n.gg-training-subtitle strong \x7b\n  color: #59473C;\n\x7d\n\n/* 3-Step Process */\n.gg-training-process-row \x7b\n  display: flex;\n  justify-content: center;\n  gap: 24px;\n  margin-bottom: 48px;\n"

def cssPart05 : String :=
  "  flex-wrap: wrap;\n\x7d\n\n.gg-training-process-step \x7b\n  background: #fff;\n  border: 3px solid #2c2c2c;\n  padding: 28px 24px;\n  width: 280px;\n  text-align: center;\n  position: relative;\n  box-shadow: 6px 6px 0 #2c2c2c;\n"

def cssPart06 : String :=
  "  font-family: 'Sometype Mono', monospace;\n\x7d\n\n.gg-training-process-number \x7b\n  position: absolute;\n  top: -16px;\n  left: 50%;\n  transform: translateX(-50%);\n  background: #4ECDC4;\n  color: #2c2c2c;\n  width: 32px;\n  height: 32px;\n"

def cssPart07 : String :=
  "  border: 3px solid #2c2c2c;\n  display: flex;\n  align-items: center;\n  justify-content: center;\n  font-weight: 700;\n  font-size: 14px;\n\x7d\n\n.gg-training-process-step h3 \x7b\n  font-size: 15px;\n  font-weight: 700;\n"

def cssPart08 : String :=
  "  text-transform: uppercase;\n  margin-bottom: 12px;\n  margin-top: 8px;\n  letter-spacing: 0.03em;\n  color: #2c2c2c;\n\x7d\n\n.gg-training-process-step p \x7b\n  font-size: 13px;\n  color: #59473C;\n  line-height: 1.6;\n  margin: 0;\n\x7d\n\n"

def cssPart09 : String :=
  ".gg-training-device-list \x7b\n  font-size: 12px !important;\n  color: #8C7568 !important;\n  margin-top: 10px !important;\n  font-style: italic;\n\x7d\n\n/* CTA Block */\n.gg-training-cta-block \x7b\n  background: #2c2c2c;\n  padding: 40px;\n"

def cssPart10 : String :=
  "  text-align: center;\n  border: 4px solid #2c2c2c;\n  box-shadow: 8px 8px 0 #59473C;\n\x7d\n\n.gg-training-cta-block h3 \x7b\n  font-family: 'Sometype Mono', monospace;\n  color: #F5F5DC;\n  font-size: 24px;\n  font-weight: 700;\n"

def cssPart11 : String :=
  "  text-transform: uppercase;\n  margin-bottom: 24px;\n\x7d\n\n.gg-training-cta-button \x7b\n  display: inline-block;\n  background: #4ECDC4;\n  color: #2c2c2c !important;\n  padding: 18px 40px;\n  font-family: 'Sometype Mono', monospace;\n"

def cssPart12 : String :=
  "  font-size: 16px;\n  font-weight: 700;\n  text-transform: uppercase;\n  text-decoration: none !important;\n  letter-spacing: 0.05em;\n  border: 3px solid #F5F5DC;\n  box-shadow: 6px 6px 0 #F4D03F;\n"

def cssPart13 : String :=
  "  transition: transform 0.1s, box-shadow 0.1s;\n\x7d\n\n.gg-training-cta-button:hover \x7b\n  transform: translate(3px, 3px);\n  box-shadow: 3px 3px 0 #F4D03F;\n  color: #2c2c2c !important;\n\x7d\n\n.gg-training-includes-row \x7b\n  display: flex;\n"

def cssPart14 : String :=
  "  justify-content: center;\n  gap: 32px;\n  margin-top: 32px;\n  flex-wrap: wrap;\n\x7d\n\n.gg-training-includes-item \x7b\n  display: flex;\n  align-items: center;\n  gap: 10px;\n  color: #F5F5DC;\n  font-family: 'Sometype Mono', monospace;\n"

def cssPart15 : String :=
  "  font-size: 13px;\n\x7d\n\n.gg-training-includes-icon \x7b\n  width: 24px;\n  height: 24px;\n  background: #4ECDC4;\n  border: 2px solid #F5F5DC;\n  display: flex;\n  align-items: center;\n  justify-content: center;\n  font-size: 14px;\n"

def cssPart16 : String :=
  "  color: #2c2c2c;\n\x7d\n\n.gg-training-cta-footer \x7b\n  margin-top: 28px;\n  display: flex;\n  justify-content: center;\n  align-items: center;\n  gap: 24px;\n  flex-wrap: wrap;\n\x7d\n\n.gg-training-cta-price \x7b\n"

def cssPart17 : String :=
  "  font-family: 'Sometype Mono', monospace;\n  color: #4ECDC4;\n  font-size: 28px;\n  font-weight: 700;\n\x7d\n\n.gg-training-cta-price span \x7b\n  font-size: 14px;\n  color: #A89074;\n  font-weight: 400;\n  margin-left: 8px;\n\x7d\n\n"

def cssPart18 : String :=
  ".gg-training-cta-delivery \x7b\n  font-family: 'Sometype Mono', monospace;\n  color: #A89074;\n  font-size: 13px;\n\x7d\n\n/* Responsive */\n@media (max-width: 900px) \x7b\n  .gg-training-process-row \x7b\n    flex-direction: column;\n"

def cssPart19 : String :=
  "    align-items: center;\n  \x7d\n  \n  .gg-training-process-step \x7b\n    width: 100%;\n    max-width: 400px;\n  \x7d\n\x7d\n\n@media (max-width: 600px) \x7b\n  .gg-training-includes-row \x7b\n    flex-direction: column;\n    align-items: center;\n  \x7d\n  \n"

def cssPart20 : String :=
  "  .gg-training-cta-footer \x7b\n    flex-direction: column;\n  \x7d\n  \n  .gg-training-title \x7b\n    font-size: 28px;\n  \x7d\n\x7d\n</style>"

def sectionOpenTag : String :=
  "<section class=\"gg-training-section\" id=\"training\">"

def htmlSeg01 : String :=
  "\n\n"

def htmlSeg02a : String :=
  "\n\n  <!-- Section Header -->\n  <div class=\"gg-training-header\">\n    <div class=\"gg-training-badge\">"

def badgeText : String :=
  "◆ Training Plans"

def htmlSeg03a : String :=
  "</div>\n    <h2 class=\"gg-training-title\">Your Plan. Built for You.</h2>\n    <p class=\"gg-training-subtitle\">We build a plan calibrated to <strong>"

def htmlSeg04 : String :=
  "'s</strong> "

def htmlSeg05a : String :=
  ".</p>\n  </div>\n  \n  <!-- 3-Step Process -->\n  <div class=\"gg-training-process-row\">\n    <div class=\"gg-training-process-step\">\n      <div class=\"gg-training-process-number\">1</div>\n      <h3>"

def stepHeading1 : String :=
  "Fill Out the Questionnaire"

def htmlSeg06a : String :=
  "</h3>\n      <p>Hours per week, race goals, schedule constraints, injury history. Takes 5 minutes.</p>\n    </div>\n    <div class=\"gg-training-process-step\">\n      <div class=\"gg-training-process-number\">2</div>\n      <h3>"

def stepHeading2 : String :=
  "I Build Your Plan"

def htmlSeg07a : String :=
  "</h3>\n      <p>A custom training plan structured around YOUR life with workouts you can upload to any device or platform.</p>\n      <p class=\"gg-training-device-list\">"

def deviceListText : String :=
  "Garmin · Wahoo · Hammerhead · Zwift · TrainerRoad · TrainingPeaks"

def htmlSeg08a : String :=
  "</p>\n    </div>\n    <div class=\"gg-training-process-step\">\n      <div class=\"gg-training-process-number\">3</div>\n      <h3>"

def stepHeading3 : String :=
  "Train With Confidence"

def htmlSeg09a : String :=
  "</h3>\n      <p>Personalized guide with race strategy, fueling, pacing, and race-day execution.</p>\n    </div>\n  </div>\n  \n  <!-- CTA Block -->\n  <div class=\"gg-training-cta-block\">\n    <h3>Ready to Build Your "

def htmlSeg10 : String :=
  " Plan?</h3>\n    \n    <a href=\""

def htmlSeg11 : String :=
  "\" class=\"gg-training-cta-button\" target=\"_blank\">\n      "

def ctaText : String :=
  "Build My Training Plan →"

def htmlSeg12a : String :=
  "\n    </a>\n    \n    <div class=\"gg-training-includes-row\">\n      <div class=\"gg-training-includes-item\">\n        <div class=\"gg-training-includes-icon\">✓</div>\n        <span>Custom structured workouts</span>\n      </div>\n"

def htmlSeg12b : String :=
  "      <div class=\"gg-training-includes-item\">\n        <div class=\"gg-training-includes-icon\">✓</div>\n        <span>ZWO files for all platforms</span>\n      </div>\n      <div class=\"gg-training-includes-item\">\n"

def htmlSeg12c : String :=
  "        <div class=\"gg-training-includes-icon\">✓</div>\n        <span>Personalized race guide</span>\n      </div>\n      <div class=\"gg-training-includes-item\">\n        <div class=\"gg-training-includes-icon\">✓</div>\n"

def htmlSeg12d : String :=
  "        <span>Race-specific strategy</span>\n      </div>\n    </div>\n    \n    <div class=\"gg-training-cta-footer\">\n      <div class=\"gg-training-cta-price\">$199 <span>one-time</span></div>\n"

def htmlSeg12e : String :=
  "      <div class=\"gg-training-cta-delivery\">Plans delivered same day.</div>\n    </div>\n  </div>\n  \n"

def sectionCloseTag : String :=
  "</section>"

def get_training_plans_css : String :=
  cssPart00 ++ cssPart01 ++ cssPart02 ++ cssPart03 ++ cssPart04 ++ cssPart05 ++ cssPart06 ++ cssPart07 ++ cssPart08 ++ cssPart09 ++ cssPart10 ++ cssPart11 ++ cssPart12 ++ cssPart13 ++ cssPart14 ++ cssPart15 ++ cssPart16 ++ cssPart17 ++ cssPart18 ++ cssPart19 ++ cssPart20


/-- URL built at line 42 of the source:
f"https://wattgod.github.io/athlete-profiles/athlete-questionnaire.html?race=\x7brace_slug\x7d". -/
def questionnaire_url (race_slug : String) : String :=
  "https://wattgod.github.io/athlete-profiles/athlete-questionnaire.html?race=" ++ race_slug

/-- The f-string template of lines 44-108, literal segments and interpolated
values in source order (the local variable html before str.strip()). -/
def rawHtml (race_name race_slug race_challenge : String) : String :=
  sectionOpenTag ++ htmlSeg01 ++ get_training_plans_css ++ htmlSeg02a ++ badgeText ++ htmlSeg03a ++ race_name ++ htmlSeg04 ++ race_challenge ++ htmlSeg05a ++ stepHeading1 ++ htmlSeg06a ++ stepHeading2 ++ htmlSeg07a ++ deviceListText ++ htmlSeg08a ++ stepHeading3 ++ htmlSeg09a ++ race_name ++ htmlSeg10 ++ (questionnaire_url race_slug) ++ htmlSeg11 ++ ctaText ++ htmlSeg12a ++ htmlSeg12b ++ htmlSeg12c ++ htmlSeg12d ++ htmlSeg12e ++ sectionCloseTag


/-- The Renderer, generate_training_plans_section (lines 24-110): the f-string
template rawHtml with str.strip() applied (line 110). -/
def generate_training_plans_section (race_name race_slug race_challenge : String) : String :=
  pythonStrip (rawHtml race_name race_slug race_challenge)

/-- The nested course_description mapping: optional fields signature_challenge
and character. -/
structure CourseDescription where
  signature_challenge : Option String
  character : Option String

/-- The inner race mapping: every field optional (a none models an absent key). -/
structure Race where
  display_name : Option String
  name : Option String
  slug : Option String
  race_challenge_tagline : Option String
  course_description : Option CourseDescription

/-- Adapter input: the outer mapping, whose only relevant key is race
(absent = none). -/
structure RaceData where
  race : Option Race

/-- Line 372: race.get('display_name', race.get('name', 'This Race')). -/
def derive_race_name (race : Race) : String :=
  race.display_name.getD (race.name.getD "This Race")

/-- Line 373: race.get('slug', 'race'). -/
def derive_race_slug (race : Race) : String :=
  race.slug.getD "race"

/-- Lines 376-387: the race_challenge fallback chain of the Adapter.
The tagline is taken unless falsy (absent or empty); else the first truthy of
course_description.signature_challenge and course_description.character is
lower-cased; else the literal fallback. -/
def derive_race_challenge (race : Race) : String :=
  if pyTruthy race.race_challenge_tagline then race.race_challenge_tagline.getD ""
  else
    let course := race.course_description.getD { signature_challenge := none, character := none }
    if pyTruthy course.signature_challenge then pyLower (course.signature_challenge.getD "")
    else if pyTruthy course.character then pyLower (course.character.getD "")
    else "unique demands and challenging terrain"

/-- The Adapter, generate_training_plans_html (lines 358-393).  Line 371
(race = data['race']) raises KeyError when the key is absent; that fatal
lookup error is modelled as none, and a returned HTML string as some. -/
def generate_training_plans_html (data : RaceData) : Option String :=
  match data.race with
  | none => none
  | some race =>
      some (generate_training_plans_section (derive_race_name race) (derive_race_slug race)
        (derive_race_challenge race))

/-- Spec wording helper: a field counts only when present and non-empty
(spec section 4.2, "if present and non-empty"). -/
def specPresentNonEmpty : Option String → Option String
  | none => none
  | some v => if v = "" then none else some v

/-- Spec section 4.2, written from the spec's words: race_name is
display_name if present, else name if present, else "This Race". -/
def spec_race_name (race : Race) : String :=
  match race.display_name with
  | some v => v
  | none =>
    match race.name with
    | some v => v
    | none => "This Race"

/-- Spec section 4.2, written from the spec's words: race_slug is slug if
present, else "race". -/
def spec_race_slug (race : Race) : String :=
  match race.slug with
  | some v => v
  | none => "race"

/-- Spec section 4.2, written from the spec's words: the ordered fallback
chain for race_challenge, first match wins: (1) race_challenge_tagline if
present and non-empty, verbatim; (2) course_description.signature_challenge
lower-cased if present and non-empty; (3) course_description.character
lower-cased if present and non-empty; (4) the literal fallback. -/
def spec_race_challenge (race : Race) : String :=
  match specPresentNonEmpty race.race_challenge_tagline with
  | some t => t
  | none =>
    match specPresentNonEmpty
        ((race.course_description.getD { signature_challenge := none, character := none }).signature_challenge) with
    | some sc => pyLower sc
    | none =>
      match specPresentNonEmpty
          ((race.course_description.getD { signature_challenge := none, character := none }).character) with
      | some ch => pyLower ch
      | none => "unique demands and challenging terrain"

/-- hay contains needle as a contiguous literal substring. -/
def strContains (hay needle : String) : Prop :=
  ∃ pre post : String, hay = pre ++ needle ++ post

/-- Concatenation of a list of character lists. -/
def flat : List (List Char) → List Char
  | [] => []
  | p :: ps => p ++ flat ps

/-- First k characters of the concatenation, computed piecewise. -/
def flatTake (k : Nat) : List (List Char) → List Char
  | [] => []
  | p :: ps => p.take k ++ flatTake (k - p.length) ps

/-- Per-window absence check of a needle over the pieces of a concatenation:
an occurrence either sits inside one piece extended by the next
needle-length-minus-one characters, or inside the remaining pieces. -/
def checkAll (n : List Char) : List (List Char) → Bool
  | [] => !(decide (n <:+: ([] : List Char)))
  | p :: ps => !(decide (n <:+: p ++ flatTake (n.length - 1) ps)) && checkAll n ps

/-- The record of the spec's Adapter scenario:
data = race: name "Test Race", slug "test-race",
course_description: signature_challenge "The heat is brutal.". -/
def c1TestRace : Race :=
  { display_name := none, name := some "Test Race", slug := some "test-race",
    race_challenge_tagline := none,
    course_description := some { signature_challenge := some "The heat is brutal.", character := none } }

/-- A record with both a tagline and a signature challenge present. -/
def c1TaglineRace : Race :=
  { display_name := none, name := none, slug := none,
    race_challenge_tagline := some "Steep Gravel",
    course_description := some { signature_challenge := some "The Wind.", character := none } }

/-- A record with only course_description.character present. -/
def characterOnlyRace (ch : String) : Race :=
  { display_name := none, name := none, slug := none,
    race_challenge_tagline := none,
    course_description := some { signature_challenge := none, character := some ch } }

/-- A race mapping carrying none of the optional fields. -/
def c6Race : Race :=
  { display_name := none, name := none, slug := none,
    race_challenge_tagline := none, course_description := none }

/-- A record binding display_name and slug to the empty string (the keys are
present), with a non-empty name also present, an empty tagline and a
non-empty signature challenge. -/
def c9Race : Race :=
  { display_name := some "", name := some "Real Name", slug := some "",
    race_challenge_tagline := some "",
    course_description := some { signature_challenge := some "Brutal Heat", character := none } }

/-- The character lists of the Renderer output on the spec scenario
inputs ("SBT GRVL", "sbt-grvl", "altitude demands"), piece by piece in
order: rawHtml with the two literals of questionnaire_url split out. -/
def c3Parts : List (List Char) :=
  [sectionOpenTag.data,
   htmlSeg01.data,
   cssPart00.data,
   cssPart01.data,
   cssPart02.data,
   cssPart03.data,
   cssPart04.data,
   cssPart05.data,
   cssPart06.data,
   cssPart07.data,
   cssPart08.data,
   cssPart09.data,
   cssPart10.data,
   cssPart11.data,
   cssPart12.data,
   cssPart13.data,
   cssPart14.data,
   cssPart15.data,
   cssPart16.data,
   cssPart17.data,
   cssPart18.data,
   cssPart19.data,
   cssPart20.data,
   htmlSeg02a.data,
   badgeText.data,
   htmlSeg03a.data,
   "SBT GRVL".data,
   htmlSeg04.data,
   "altitude demands".data,
   htmlSeg05a.data,
   stepHeading1.data,
   htmlSeg06a.data,
   stepHeading2.data,
   htmlSeg07a.data,
   deviceListText.data,
   htmlSeg08a.data,
   stepHeading3.data,
   htmlSeg09a.data,
   "SBT GRVL".data,
   htmlSeg10.data,
   "https://wattgod.github.io/athlete-profiles/athlete-questionnaire.html?race=".data,
   "sbt-grvl".data,
   htmlSeg11.data,
   ctaText.data,
   htmlSeg12a.data,
   htmlSeg12b.data,
   htmlSeg12c.data,
   htmlSeg12d.data,
   htmlSeg12e.data,
   sectionCloseTag.data]

theorem strContains_iff_data {hay needle : String} :
    strContains hay needle ↔ needle.data <:+: hay.data := by
  constructor
  · rintro ⟨pre, post, rfl⟩
    exact ⟨pre.data, post.data, by simp [String.data_append]⟩
  · rintro ⟨s, t, hst⟩
    refine ⟨⟨s⟩, ⟨t⟩, String.ext ?_⟩
    simpa [String.data_append] using hst.symm

theorem strContains_self (m : String) : strContains m m :=
  strContains_iff_data.mpr ⟨[], [], by simp⟩

theorem strContains_of_middle {hay x y z m : String}
    (hhay : hay = x ++ y ++ z) (h : strContains y m) : strContains hay m := by
  obtain ⟨p, q, hy⟩ := h
  exact ⟨x ++ p, q ++ z, by rw [hhay, hy]; simp [String.append_assoc]⟩

theorem dropWhile_eq_self_of_head {p : Char → Bool} {l : List Char} {a : Char}
    (h : l.head? = some a) (hpa : p a = false) : l.dropWhile p = l := by
  cases l with
  | nil => simp at h
  | cons b t =>
    simp only [List.head?_cons, Option.some.injEq] at h
    subst h
    simp [List.dropWhile_cons, hpa]

theorem pythonStrip_eq_self {st : String} {a b : Char}
    (h1 : st.data.head? = some a) (e1 : isPySpace a = false)
    (h2 : st.data.getLast? = some b) (e2 : isPySpace b = false) :
    pythonStrip st = st := by
  have hd : st.data.dropWhile isPySpace = st.data := dropWhile_eq_self_of_head h1 e1
  have hrev : st.data.reverse.head? = some b := by rw [List.head?_reverse]; exact h2
  have hd2 : st.data.reverse.dropWhile isPySpace = st.data.reverse :=
    dropWhile_eq_self_of_head hrev e2
  show (⟨((st.data.dropWhile isPySpace).reverse.dropWhile isPySpace).reverse⟩ : String) = st
  rw [hd, hd2, List.reverse_reverse]

theorem flatTake_eq (k : Nat) (ps : List (List Char)) : flatTake k ps = (flat ps).take k := by
  induction ps generalizing k with
  | nil => simp [flatTake, flat]
  | cons p ps ih => simp [flatTake, flat, List.take_append_eq_append_take, ih]

theorem infixWindow {n A B : List Char} (h : n <:+: A ++ B) :
    n <:+: A ++ B.take (n.length - 1) ∨ n <:+: B := by
  obtain ⟨l, r, hlr⟩ := h
  rcases Nat.lt_or_ge l.length A.length with hc | hc
  · left
    have hA : A ++ B.take (n.length - 1) = (A ++ B).take (A.length + (n.length - 1)) := by
      rw [List.take_append_eq_append_take, List.take_of_length_le (Nat.le_add_right _ _),
        Nat.add_sub_cancel_left]
    rw [hA, ← hlr]
    have h1 : (l ++ n ++ r).take (A.length + (n.length - 1))
        = l ++ n ++ r.take (A.length + (n.length - 1) - l.length - n.length) := by
      rw [List.append_assoc, List.take_append_eq_append_take,
        List.take_of_length_le (by omega), List.take_append_eq_append_take,
        List.take_of_length_le (by omega), List.append_assoc, Nat.sub_sub]
    rw [h1]
    exact ⟨l, r.take (A.length + (n.length - 1) - l.length - n.length), rfl⟩
  · right
    have hB : l.drop A.length ++ n ++ r = B := by
      have hdrop := congrArg (List.drop A.length) hlr
      rw [List.drop_left] at hdrop
      rw [List.append_assoc, List.drop_append_eq_append_drop,
        Nat.sub_eq_zero_of_le hc, List.drop_zero] at hdrop
      rw [List.append_assoc]
      exact hdrop
    exact ⟨l.drop A.length, r, hB⟩

theorem checkAll_sound (n : List Char) :
    ∀ ps : List (List Char), checkAll n ps = true → ¬ n <:+: flat ps := by
  intro ps
  induction ps with
  | nil =>
    intro h hinf
    rw [checkAll, Bool.not_eq_true', decide_eq_false_iff_not] at h
    exact h (by simpa [flat] using hinf)
  | cons p ps ih =>
    intro h hinf
    rw [checkAll, Bool.and_eq_true] at h
    obtain ⟨h1, h2⟩ := h
    rw [Bool.not_eq_true', decide_eq_false_iff_not] at h1
    rw [show flat (p :: ps) = p ++ flat ps from rfl] at hinf
    rcases infixWindow hinf with hw | hw
    · rw [flatTake_eq] at h1
      exact h1 hw
    · exact ih h2 hw

theorem rawHtml_head (n s c : String) : (rawHtml n s c).data.head? = some '<' := by
  simp only [rawHtml, String.data_append, List.append_assoc]
  rw [List.head?_append_of_ne_nil _ (show sectionOpenTag.data ≠ [] by decide)]
  decide

theorem rawHtml_last (n s c : String) : (rawHtml n s c).data.getLast? = some '>' := by
  simp only [rawHtml, String.data_append, List.append_assoc]
  simp [List.getLast?_append, show sectionCloseTag.data.getLast? = some '>' from by decide]

theorem render_eq_raw (n s c : String) :
    generate_training_plans_section n s c = rawHtml n s c :=
  pythonStrip_eq_self (rawHtml_head n s c) (by decide) (rawHtml_last n s c) (by decide)

theorem str_append_empty (x : String) : x ++ "" = x :=
  String.ext (by rw [String.data_append]; exact List.append_nil _)

theorem rawHtml_eq_open_rest (n s c : String) :
    rawHtml n s c = sectionOpenTag ++ (htmlSeg01 ++ get_training_plans_css ++ htmlSeg02a ++ badgeText ++ htmlSeg03a ++ n ++ htmlSeg04 ++ c ++ htmlSeg05a ++ stepHeading1 ++ htmlSeg06a ++ stepHeading2 ++ htmlSeg07a ++ deviceListText ++ htmlSeg08a ++ stepHeading3 ++ htmlSeg09a ++ n ++ htmlSeg10 ++ (questionnaire_url s) ++ htmlSeg11 ++ ctaText ++ htmlSeg12a ++ htmlSeg12b ++ htmlSeg12c ++ htmlSeg12d ++ htmlSeg12e ++ sectionCloseTag) := by
  simp [rawHtml, String.append_assoc]

theorem render_take_three (n s c : String) :
    (generate_training_plans_section n s c).data.take 3 = ['<', 's', 'e'] := by
  rw [render_eq_raw, rawHtml_eq_open_rest, String.data_append, List.take_append_eq_append_take]
  rw [show sectionOpenTag.data.take 3 = ['<', 's', 'e'] by decide,
    show 3 - sectionOpenTag.data.length = 0 by decide, List.take_zero, List.append_nil]

theorem generate_html_some (r : Race) :
    generate_training_plans_html { race := some r }
      = some (generate_training_plans_section (derive_race_name r) (derive_race_slug r)
          (derive_race_challenge r)) := rfl

theorem derive_race_name_eq_spec (r : Race) : derive_race_name r = spec_race_name r := by
  rcases r with ⟨dn, nm, sl, tg, cd⟩
  cases dn <;> cases nm <;> rfl

theorem derive_race_slug_eq_spec (r : Race) : derive_race_slug r = spec_race_slug r := by
  rcases r with ⟨dn, nm, sl, tg, cd⟩
  cases sl <;> rfl

theorem derive_race_challenge_eq_spec (r : Race) :
    derive_race_challenge r = spec_race_challenge r := by
  rcases r with ⟨dn, nm, sl, tg, cd⟩
  rcases cd with _ | ⟨sg, ch⟩ <;> rcases tg with _ | t <;>
    simp only [derive_race_challenge, spec_race_challenge, specPresentNonEmpty, pyTruthy,
      Option.getD_none, Option.getD_some] <;>
    try rcases sg with _ | sv <;>
    try rcases ch with _ | cv
  all_goals (try simp_all)
  all_goals (try split_ifs <;> simp_all)

/-- C1: for every record whose outer race mapping is present, the Adapter
derives race_challenge by the ordered fallback chain of the spec (first match
wins; the tagline verbatim, the course fields lower-cased, each only when
present and non-empty, else the literal fallback); with only
course_description.character set the challenge is that value lower-cased; on
the record race = (name "Test Race", slug "test-race", course_description =
(signature_challenge "The heat is brutal.")) the challenge text in the output
is "the heat is brutal.". -/
theorem c1_adapter_challenge_fallback_chain :
    (∀ r : Race, derive_race_challenge r = spec_race_challenge r)
    ∧ derive_race_challenge c1TaglineRace = "Steep Gravel"
    ∧ (∀ ch : String, derive_race_challenge (characterOnlyRace ch)
        = if ch = "" then "unique demands and challenging terrain" else pyLower ch)
    ∧ generate_training_plans_html { race := some c1TestRace }
      = some (generate_training_plans_section "Test Race" "test-race" "the heat is brutal.") := by
  refine ⟨derive_race_challenge_eq_spec, by decide, ?_, ?_⟩
  · intro ch
    by_cases hch : ch = "" <;>
      simp [derive_race_challenge, characterOnlyRace, pyTruthy, hch]
  · rw [generate_html_some,
      show derive_race_name c1TestRace = "Test Race" from rfl,
      show derive_race_slug c1TestRace = "test-race" from rfl,
      show derive_race_challenge c1TestRace = "the heat is brutal." by decide]

/-- C4: the Adapter fails exactly when the outer race key is absent (the
KeyError of line 371, modelled as none, with no HTML produced); when the key
is present it always returns an HTML string. -/
theorem c4_missing_race_key_is_only_failure :
    ∀ data : RaceData, generate_training_plans_html data = none ↔ data.race = none := by
  intro data
  rcases data with ⟨_ | r⟩
  · simp [generate_training_plans_html]
  · simp [generate_training_plans_html]

/-- C8: for every record with the race key present, the Adapter returns
exactly the Renderer applied to the three values derived by the documented
fallback rules (the spec-side derivation functions), unchanged. -/
theorem c8_adapter_refines_spec_derivation :
    ∀ r : Race, generate_training_plans_html { race := some r }
      = some (generate_training_plans_section (spec_race_name r) (spec_race_slug r)
          (spec_race_challenge r)) := by
  intro r
  rw [generate_html_some, derive_race_name_eq_spec, derive_race_slug_eq_spec,
    derive_race_challenge_eq_spec]

/-- C9: the race_name and race_slug fallbacks are decided by key presence
only: display_name and slug bound to the empty string are used as the empty
string even though name is present and non-empty, while the empty tagline is
skipped by the challenge chain in favour of the lower-cased signature
challenge. -/
theorem c9_name_slug_presence_only_fallback :
    derive_race_name c9Race = ""
    ∧ derive_race_slug c9Race = ""
    ∧ derive_race_challenge c9Race = "brutal heat"
    ∧ generate_training_plans_html { race := some c9Race }
      = some (generate_training_plans_section "" "" "brutal heat") := by
  refine ⟨rfl, rfl, by decide, ?_⟩
  rw [generate_html_some,
    show derive_race_name c9Race = "" from rfl,
    show derive_race_slug c9Race = "" from rfl,
    show derive_race_challenge c9Race = "brutal heat" by decide]

/-- C7: the Renderer is total over all string inputs (it is a Lean function),
and its output carries no leading or trailing whitespace: it is a fixed point
of the str.strip() model. -/
theorem c7_render_total_and_trimmed :
    ∀ n s c : String,
      pythonStrip (generate_training_plans_section n s c)
        = generate_training_plans_section n s c := by
  intro n s c
  rw [render_eq_raw n s c]
  exact render_eq_raw n s c

/-- C10: for all inputs the Renderer output begins with the literal section
opening tag and ends with the literal closing tag; everything else, the style
block included, lies strictly between the two. -/
theorem c10_output_single_section_element :
    ∀ n s c : String, ∃ mid : String,
      generate_training_plans_section n s c
        = "<section class=\"gg-training-section\" id=\"training\">" ++ mid ++ "</section>" := by
  intro n s c
  refine ⟨htmlSeg01 ++ get_training_plans_css ++ htmlSeg02a ++ badgeText ++ htmlSeg03a ++ n ++ htmlSeg04 ++ c ++ htmlSeg05a ++ stepHeading1 ++ htmlSeg06a ++ stepHeading2 ++ htmlSeg07a ++ deviceListText ++ htmlSeg08a ++ stepHeading3 ++ htmlSeg09a ++ n ++ htmlSeg10 ++ (questionnaire_url s) ++ htmlSeg11 ++ ctaText ++ htmlSeg12a ++ htmlSeg12b ++ htmlSeg12c ++ htmlSeg12d ++ htmlSeg12e, ?_⟩
  rw [render_eq_raw]
  simp [rawHtml, sectionOpenTag, sectionCloseTag, String.append_assoc]

/-- C5: for all strings n, s, c the Renderer output contains n, c and
"?race=" ++ s as literal substrings (the latter inside the call-to-action
link, whose full href prefix is also exhibited), and contains the fixed
markers: the section id training, the badge text, the three step headings,
and the fixed device list. -/
theorem c5_output_contains_inputs_and_markers :
    ∀ n s c : String,
      strContains (generate_training_plans_section n s c) n
      ∧ strContains (generate_training_plans_section n s c) c
      ∧ strContains (generate_training_plans_section n s c) ("?race=" ++ s)
      ∧ strContains (generate_training_plans_section n s c)
          ("<a href=\"https://wattgod.github.io/athlete-profiles/athlete-questionnaire.html?race=" ++ s)
      ∧ strContains (generate_training_plans_section n s c) "id=\"training\""
      ∧ strContains (generate_training_plans_section n s c) "◆ Training Plans"
      ∧ strContains (generate_training_plans_section n s c) "Fill Out the Questionnaire"
      ∧ strContains (generate_training_plans_section n s c) "I Build Your Plan"
      ∧ strContains (generate_training_plans_section n s c) "Train With Confidence"
      ∧ strContains (generate_training_plans_section n s c) "Garmin · Wahoo · Hammerhead · Zwift · TrainerRoad · TrainingPeaks" := by
  intro n s c
  refine ⟨?_, ?_, ?_, ?_, ?_, ?_, ?_, ?_, ?_, ?_⟩
  ·
    refine strContains_of_middle
      (show generate_training_plans_section n s c
          = (sectionOpenTag ++ htmlSeg01 ++ get_training_plans_css ++ htmlSeg02a ++ badgeText ++ htmlSeg03a) ++ (n) ++ (htmlSeg04 ++ c ++ htmlSeg05a ++ stepHeading1 ++ htmlSeg06a ++ stepHeading2 ++ htmlSeg07a ++ deviceListText ++ htmlSeg08a ++ stepHeading3 ++ htmlSeg09a ++ n ++ htmlSeg10 ++ (questionnaire_url s) ++ htmlSeg11 ++ ctaText ++ htmlSeg12a ++ htmlSeg12b ++ htmlSeg12c ++ htmlSeg12d ++ htmlSeg12e ++ sectionCloseTag) by
        rw [render_eq_raw]; simp [rawHtml, String.append_assoc])
      (strContains_self n)
  ·
    refine strContains_of_middle
      (show generate_training_plans_section n s c
          = (sectionOpenTag ++ htmlSeg01 ++ get_training_plans_css ++ htmlSeg02a ++ badgeText ++ htmlSeg03a ++ n ++ htmlSeg04) ++ (c) ++ (htmlSeg05a ++ stepHeading1 ++ htmlSeg06a ++ stepHeading2 ++ htmlSeg07a ++ deviceListText ++ htmlSeg08a ++ stepHeading3 ++ htmlSeg09a ++ n ++ htmlSeg10 ++ (questionnaire_url s) ++ htmlSeg11 ++ ctaText ++ htmlSeg12a ++ htmlSeg12b ++ htmlSeg12c ++ htmlSeg12d ++ htmlSeg12e ++ sectionCloseTag) by
        rw [render_eq_raw]; simp [rawHtml, String.append_assoc])
      (strContains_self c)
  ·
    refine strContains_of_middle
      (show generate_training_plans_section n s c
          = (sectionOpenTag ++ htmlSeg01 ++ get_training_plans_css ++ htmlSeg02a ++ badgeText ++ htmlSeg03a ++ n ++ htmlSeg04 ++ c ++ htmlSeg05a ++ stepHeading1 ++ htmlSeg06a ++ stepHeading2 ++ htmlSeg07a ++ deviceListText ++ htmlSeg08a ++ stepHeading3 ++ htmlSeg09a ++ n ++ htmlSeg10) ++ ((questionnaire_url s)) ++ (htmlSeg11 ++ ctaText ++ htmlSeg12a ++ htmlSeg12b ++ htmlSeg12c ++ htmlSeg12d ++ htmlSeg12e ++ sectionCloseTag) by
        rw [render_eq_raw]; simp [rawHtml, String.append_assoc])
      (show strContains (questionnaire_url s) ("?race=" ++ s) from
        ⟨"https://wattgod.github.io/athlete-profiles/athlete-questionnaire.html", "", by
          rw [str_append_empty, questionnaire_url,
            show ("https://wattgod.github.io/athlete-profiles/athlete-questionnaire.html?race=" : String) = "https://wattgod.github.io/athlete-profiles/athlete-questionnaire.html" ++ "?race=" by decide,
            String.append_assoc]⟩)
  ·
    refine strContains_of_middle
      (show generate_training_plans_section n s c
          = (sectionOpenTag ++ htmlSeg01 ++ get_training_plans_css ++ htmlSeg02a ++ badgeText ++ htmlSeg03a ++ n ++ htmlSeg04 ++ c ++ htmlSeg05a ++ stepHeading1 ++ htmlSeg06a ++ stepHeading2 ++ htmlSeg07a ++ deviceListText ++ htmlSeg08a ++ stepHeading3 ++ htmlSeg09a ++ n) ++ (htmlSeg10 ++ (questionnaire_url s)) ++ (htmlSeg11 ++ ctaText ++ htmlSeg12a ++ htmlSeg12b ++ htmlSeg12c ++ htmlSeg12d ++ htmlSeg12e ++ sectionCloseTag) by
        rw [render_eq_raw]; simp [rawHtml, String.append_assoc])
      (show strContains (htmlSeg10 ++ questionnaire_url s) ("<a href=\"https://wattgod.github.io/athlete-profiles/athlete-questionnaire.html?race=" ++ s) from
        ⟨" Plan?</h3>\n    \n    ", "", by
          rw [str_append_empty, questionnaire_url,
            show ("<a href=\"https://wattgod.github.io/athlete-profiles/athlete-questionnaire.html?race=" : String) = "<a href=\"" ++ "https://wattgod.github.io/athlete-profiles/athlete-questionnaire.html?race=" by decide,
            show htmlSeg10 = " Plan?</h3>\n    \n    " ++ "<a href=\"" by decide]
          simp only [String.append_assoc]⟩)
  ·
    refine strContains_of_middle
      (show generate_training_plans_section n s c
          = ("") ++ (sectionOpenTag) ++ (htmlSeg01 ++ get_training_plans_css ++ htmlSeg02a ++ badgeText ++ htmlSeg03a ++ n ++ htmlSeg04 ++ c ++ htmlSeg05a ++ stepHeading1 ++ htmlSeg06a ++ stepHeading2 ++ htmlSeg07a ++ deviceListText ++ htmlSeg08a ++ stepHeading3 ++ htmlSeg09a ++ n ++ htmlSeg10 ++ (questionnaire_url s) ++ htmlSeg11 ++ ctaText ++ htmlSeg12a ++ htmlSeg12b ++ htmlSeg12c ++ htmlSeg12d ++ htmlSeg12e ++ sectionCloseTag) by
        rw [render_eq_raw]; simp [rawHtml, String.append_assoc])
      (strContains_iff_data.mpr (by decide))
  ·
    refine strContains_of_middle
      (show generate_training_plans_section n s c
          = (sectionOpenTag ++ htmlSeg01 ++ get_training_plans_css ++ htmlSeg02a) ++ (badgeText) ++ (htmlSeg03a ++ n ++ htmlSeg04 ++ c ++ htmlSeg05a ++ stepHeading1 ++ htmlSeg06a ++ stepHeading2 ++ htmlSeg07a ++ deviceListText ++ htmlSeg08a ++ stepHeading3 ++ htmlSeg09a ++ n ++ htmlSeg10 ++ (questionnaire_url s) ++ htmlSeg11 ++ ctaText ++ htmlSeg12a ++ htmlSeg12b ++ htmlSeg12c ++ htmlSeg12d ++ htmlSeg12e ++ sectionCloseTag) by
        rw [render_eq_raw]; simp [rawHtml, String.append_assoc])
      (strContains_self badgeText)
  ·
    refine strContains_of_middle
      (show generate_training_plans_section n s c
          = (sectionOpenTag ++ htmlSeg01 ++ get_training_plans_css ++ htmlSeg02a ++ badgeText ++ htmlSeg03a ++ n ++ htmlSeg04 ++ c ++ htmlSeg05a) ++ (stepHeading1) ++ (htmlSeg06a ++ stepHeading2 ++ htmlSeg07a ++ deviceListText ++ htmlSeg08a ++ stepHeading3 ++ htmlSeg09a ++ n ++ htmlSeg10 ++ (questionnaire_url s) ++ htmlSeg11 ++ ctaText ++ htmlSeg12a ++ htmlSeg12b ++ htmlSeg12c ++ htmlSeg12d ++ htmlSeg12e ++ sectionCloseTag) by
        rw [render_eq_raw]; simp [rawHtml, String.append_assoc])
      (strContains_self stepHeading1)
  ·
    refine strContains_of_middle
      (show generate_training_plans_section n s c
          = (sectionOpenTag ++ htmlSeg01 ++ get_training_plans_css ++ htmlSeg02a ++ badgeText ++ htmlSeg03a ++ n ++ htmlSeg04 ++ c ++ htmlSeg05a ++ stepHeading1 ++ htmlSeg06a) ++ (stepHeading2) ++ (htmlSeg07a ++ deviceListText ++ htmlSeg08a ++ stepHeading3 ++ htmlSeg09a ++ n ++ htmlSeg10 ++ (questionnaire_url s) ++ htmlSeg11 ++ ctaText ++ htmlSeg12a ++ htmlSeg12b ++ htmlSeg12c ++ htmlSeg12d ++ htmlSeg12e ++ sectionCloseTag) by
        rw [render_eq_raw]; simp [rawHtml, String.append_assoc])
      (strContains_self stepHeading2)
  ·
    refine strContains_of_middle
      (show generate_training_plans_section n s c
          = (sectionOpenTag ++ htmlSeg01 ++ get_training_plans_css ++ htmlSeg02a ++ badgeText ++ htmlSeg03a ++ n ++ htmlSeg04 ++ c ++ htmlSeg05a ++ stepHeading1 ++ htmlSeg06a ++ stepHeading2 ++ htmlSeg07a ++ deviceListText ++ htmlSeg08a) ++ (stepHeading3) ++ (htmlSeg09a ++ n ++ htmlSeg10 ++ (questionnaire_url s) ++ htmlSeg11 ++ ctaText ++ htmlSeg12a ++ htmlSeg12b ++ htmlSeg12c ++ htmlSeg12d ++ htmlSeg12e ++ sectionCloseTag) by
        rw [render_eq_raw]; simp [rawHtml, String.append_assoc])
      (strContains_self stepHeading3)
  ·
    refine strContains_of_middle
      (show generate_training_plans_section n s c
          = (sectionOpenTag ++ htmlSeg01 ++ get_training_plans_css ++ htmlSeg02a ++ badgeText ++ htmlSeg03a ++ n ++ htmlSeg04 ++ c ++ htmlSeg05a ++ stepHeading1 ++ htmlSeg06a ++ stepHeading2 ++ htmlSeg07a) ++ (deviceListText) ++ (htmlSeg08a ++ stepHeading3 ++ htmlSeg09a ++ n ++ htmlSeg10 ++ (questionnaire_url s) ++ htmlSeg11 ++ ctaText ++ htmlSeg12a ++ htmlSeg12b ++ htmlSeg12c ++ htmlSeg12d ++ htmlSeg12e ++ sectionCloseTag) by
        rw [render_eq_raw]; simp [rawHtml, String.append_assoc])
      (strContains_self deviceListText)

/-- C6: on a race mapping carrying none of the optional fields the Adapter
still returns HTML: the Renderer applied to the fallback name "This Race",
fallback slug "race" and the fallback challenge text; the output is
non-empty and contains the fallback name, the fallback slug in the link, and
the fallback challenge text. -/
theorem c6_all_fallbacks_output :
    generate_training_plans_html { race := some c6Race }
      = some (generate_training_plans_section "This Race" "race" "unique demands and challenging terrain")
    ∧ generate_training_plans_section "This Race" "race" "unique demands and challenging terrain" ≠ ""
    ∧ strContains (generate_training_plans_section "This Race" "race" "unique demands and challenging terrain") "This Race"
    ∧ strContains (generate_training_plans_section "This Race" "race" "unique demands and challenging terrain") "?race=race"
    ∧ strContains (generate_training_plans_section "This Race" "race" "unique demands and challenging terrain") "unique demands and challenging terrain" := by
  refine ⟨?_, ?_, ?_, ?_, ?_⟩
  · rw [generate_html_some]
    rfl
  · intro h
    have hh := rawHtml_head "This Race" "race" "unique demands and challenging terrain"
    rw [← render_eq_raw, h] at hh
    exact absurd hh (by decide)
  ·
    refine strContains_of_middle
      (show generate_training_plans_section "This Race" "race" "unique demands and challenging terrain"
          = (sectionOpenTag ++ htmlSeg01 ++ get_training_plans_css ++ htmlSeg02a ++ badgeText ++ htmlSeg03a) ++ (("This Race")) ++ (htmlSeg04 ++ ("unique demands and challenging terrain") ++ htmlSeg05a ++ stepHeading1 ++ htmlSeg06a ++ stepHeading2 ++ htmlSeg07a ++ deviceListText ++ htmlSeg08a ++ stepHeading3 ++ htmlSeg09a ++ ("This Race") ++ htmlSeg10 ++ (questionnaire_url "race") ++ htmlSeg11 ++ ctaText ++ htmlSeg12a ++ htmlSeg12b ++ htmlSeg12c ++ htmlSeg12d ++ htmlSeg12e ++ sectionCloseTag) by
        rw [render_eq_raw]; simp [rawHtml, String.append_assoc])
      (strContains_self "This Race")
  ·
    refine strContains_of_middle
      (show generate_training_plans_section "This Race" "race" "unique demands and challenging terrain"
          = (sectionOpenTag ++ htmlSeg01 ++ get_training_plans_css ++ htmlSeg02a ++ badgeText ++ htmlSeg03a ++ ("This Race") ++ htmlSeg04 ++ ("unique demands and challenging terrain") ++ htmlSeg05a ++ stepHeading1 ++ htmlSeg06a ++ stepHeading2 ++ htmlSeg07a ++ deviceListText ++ htmlSeg08a ++ stepHeading3 ++ htmlSeg09a ++ ("This Race") ++ htmlSeg10) ++ ((questionnaire_url "race")) ++ (htmlSeg11 ++ ctaText ++ htmlSeg12a ++ htmlSeg12b ++ htmlSeg12c ++ htmlSeg12d ++ htmlSeg12e ++ sectionCloseTag) by
        rw [render_eq_raw]; simp [rawHtml, String.append_assoc])
      (show strContains (questionnaire_url "race") "?race=race" from
        strContains_iff_data.mpr (by decide))
  ·
    refine strContains_of_middle
      (show generate_training_plans_section "This Race" "race" "unique demands and challenging terrain"
          = (sectionOpenTag ++ htmlSeg01 ++ get_training_plans_css ++ htmlSeg02a ++ badgeText ++ htmlSeg03a ++ ("This Race") ++ htmlSeg04) ++ (("unique demands and challenging terrain")) ++ (htmlSeg05a ++ stepHeading1 ++ htmlSeg06a ++ stepHeading2 ++ htmlSeg07a ++ deviceListText ++ htmlSeg08a ++ stepHeading3 ++ htmlSeg09a ++ ("This Race") ++ htmlSeg10 ++ (questionnaire_url "race") ++ htmlSeg11 ++ ctaText ++ htmlSeg12a ++ htmlSeg12b ++ htmlSeg12c ++ htmlSeg12d ++ htmlSeg12e ++ sectionCloseTag) by
        rw [render_eq_raw]; simp [rawHtml, String.append_assoc])
      (strContains_self "unique demands and challenging terrain")

/-- C2 (amended): for every input the Renderer output is one section element
whose content begins with the fixed inline stylesheet: the section opening
tag, then the style block (the fixed stylesheet, itself of the shape style
tags around constant rules), then the body markup, then the closing tag.  The
claim as stated (a style block followed by a section element) is refuted by
the counterexample theorem. -/
theorem c2_style_block_inside_section :
    (∀ n s c : String, ∃ mid : String,
      generate_training_plans_section n s c
        = "<section class=\"gg-training-section\" id=\"training\">" ++ "\n\n"
            ++ get_training_plans_css ++ mid ++ "</section>")
    ∧ (∃ inner : String, get_training_plans_css = "<style>" ++ inner ++ "</style>") := by
  constructor
  · intro n s c
    refine ⟨htmlSeg02a ++ badgeText ++ htmlSeg03a ++ n ++ htmlSeg04 ++ c ++ htmlSeg05a ++ stepHeading1 ++ htmlSeg06a ++ stepHeading2 ++ htmlSeg07a ++ deviceListText ++ htmlSeg08a ++ stepHeading3 ++ htmlSeg09a ++ n ++ htmlSeg10 ++ (questionnaire_url s) ++ htmlSeg11 ++ ctaText ++ htmlSeg12a ++ htmlSeg12b ++ htmlSeg12c ++ htmlSeg12d ++ htmlSeg12e, ?_⟩
    rw [render_eq_raw]
    simp [rawHtml, sectionOpenTag, htmlSeg01, sectionCloseTag, String.append_assoc]
  · refine ⟨"\n/* Training Plans Section - On-Demand Model */\n.gg-training-section \x7b\n  max-width: 1000px;\n  margin: 0 auto;\n  padding: 48px 24px;\n\x7d\n\n.gg-training-header \x7b\n  text-align: center;\n  margin-bottom: 48px;\n\x7d\n\n" ++ cssPart01 ++ cssPart02 ++ cssPart03 ++ cssPart04 ++ cssPart05 ++ cssPart06 ++ cssPart07 ++ cssPart08 ++ cssPart09 ++ cssPart10 ++ cssPart11 ++ cssPart12 ++ cssPart13 ++ cssPart14 ++ cssPart15 ++ cssPart16 ++ cssPart17 ++ cssPart18 ++ cssPart19 ++ "  .gg-training-cta-footer \x7b\n    flex-direction: column;\n  \x7d\n  \n  .gg-training-title \x7b\n    font-size: 28px;\n  \x7d\n\x7d\n", ?_⟩
    simp only [get_training_plans_css]
    rw [show cssPart00 = "<style>" ++ "\n/* Training Plans Section - On-Demand Model */\n.gg-training-section \x7b\n  max-width: 1000px;\n  margin: 0 auto;\n  padding: 48px 24px;\n\x7d\n\n.gg-training-header \x7b\n  text-align: center;\n  margin-bottom: 48px;\n\x7d\n\n" by decide,
      show cssPart20 = "  .gg-training-cta-footer \x7b\n    flex-direction: column;\n  \x7d\n  \n  .gg-training-title \x7b\n    font-size: 28px;\n  \x7d\n\x7d\n" ++ "</style>" by decide]
    simp only [String.append_assoc]

/-- C2 (counterexample): at the concrete input ("a", "b", "c") the Renderer
output begins with the section opening tag, not with a style block: the
stylesheet does not precede the section element, it sits inside it. -/
theorem c2_style_before_section_counterexample :
    (∃ t : String, generate_training_plans_section "a" "b" "c"
        = "<section class=\"gg-training-section\" id=\"training\">" ++ t)
    ∧ ¬ (∃ t : String, generate_training_plans_section "a" "b" "c" = "<style>" ++ t) := by
  constructor
  · refine ⟨htmlSeg01 ++ get_training_plans_css ++ htmlSeg02a ++ badgeText ++ htmlSeg03a ++ "a" ++ htmlSeg04 ++ "c" ++ htmlSeg05a ++ stepHeading1 ++ htmlSeg06a ++ stepHeading2 ++ htmlSeg07a ++ deviceListText ++ htmlSeg08a ++ stepHeading3 ++ htmlSeg09a ++ "a" ++ htmlSeg10 ++ (questionnaire_url "b") ++ htmlSeg11 ++ ctaText ++ htmlSeg12a ++ htmlSeg12b ++ htmlSeg12c ++ htmlSeg12d ++ htmlSeg12e ++ sectionCloseTag, ?_⟩
    rw [render_eq_raw, rawHtml_eq_open_rest]
    simp only [sectionOpenTag]
  · rintro ⟨t, ht⟩
    have h3 : (generate_training_plans_section "a" "b" "c").data.take 3
        = (("<style>" : String) ++ t).data.take 3 := congrArg (fun x => x.data.take 3) ht
    rw [render_take_three, String.data_append, List.take_append_eq_append_take,
      show ("<style>" : String).data.take 3 = ['<', 's', 't'] by decide,
      show 3 - ("<style>" : String).data.length = 0 by decide, List.take_zero,
      List.append_nil] at h3
    exact absurd h3 (by decide)

/-- C3 (amended): the Renderer output on ("SBT GRVL", "sbt-grvl",
"altitude demands") contains "?race=sbt-grvl", contains the race name and the
challenge text separated by the subtitle markup, as the contiguous substring
"SBT GRVL's</strong> altitude demands", and contains the literal
call-to-action text.  The unbroken substring the claim states is refuted by
the counterexample theorem. -/
theorem c3_scenario_amended :
    strContains (generate_training_plans_section "SBT GRVL" "sbt-grvl" "altitude demands") "?race=sbt-grvl"
    ∧ strContains (generate_training_plans_section "SBT GRVL" "sbt-grvl" "altitude demands")
        "SBT GRVL's</strong> altitude demands"
    ∧ strContains (generate_training_plans_section "SBT GRVL" "sbt-grvl" "altitude demands") "Build My Training Plan →" := by
  refine ⟨?_, ?_, ?_⟩
  ·
    refine strContains_of_middle
      (show generate_training_plans_section "SBT GRVL" "sbt-grvl" "altitude demands"
          = (sectionOpenTag ++ htmlSeg01 ++ get_training_plans_css ++ htmlSeg02a ++ badgeText ++ htmlSeg03a ++ ("SBT GRVL") ++ htmlSeg04 ++ ("altitude demands") ++ htmlSeg05a ++ stepHeading1 ++ htmlSeg06a ++ stepHeading2 ++ htmlSeg07a ++ deviceListText ++ htmlSeg08a ++ stepHeading3 ++ htmlSeg09a ++ ("SBT GRVL") ++ htmlSeg10) ++ ((questionnaire_url "sbt-grvl")) ++ (htmlSeg11 ++ ctaText ++ htmlSeg12a ++ htmlSeg12b ++ htmlSeg12c ++ htmlSeg12d ++ htmlSeg12e ++ sectionCloseTag) by
        rw [render_eq_raw]; simp [rawHtml, String.append_assoc])
      (show strContains (questionnaire_url "sbt-grvl") "?race=sbt-grvl" from
        strContains_iff_data.mpr (by decide))
  ·
    refine strContains_of_middle
      (show generate_training_plans_section "SBT GRVL" "sbt-grvl" "altitude demands"
          = (sectionOpenTag ++ htmlSeg01 ++ get_training_plans_css ++ htmlSeg02a ++ badgeText ++ htmlSeg03a) ++ (("SBT GRVL") ++ htmlSeg04 ++ ("altitude demands")) ++ (htmlSeg05a ++ stepHeading1 ++ htmlSeg06a ++ stepHeading2 ++ htmlSeg07a ++ deviceListText ++ htmlSeg08a ++ stepHeading3 ++ htmlSeg09a ++ ("SBT GRVL") ++ htmlSeg10 ++ (questionnaire_url "sbt-grvl") ++ htmlSeg11 ++ ctaText ++ htmlSeg12a ++ htmlSeg12b ++ htmlSeg12c ++ htmlSeg12d ++ htmlSeg12e ++ sectionCloseTag) by
        rw [render_eq_raw]; simp [rawHtml, String.append_assoc])
      (show strContains ("SBT GRVL" ++ htmlSeg04 ++ "altitude demands")
          "SBT GRVL's</strong> altitude demands" from ⟨"", "", by decide⟩)
  ·
    refine strContains_of_middle
      (show generate_training_plans_section "SBT GRVL" "sbt-grvl" "altitude demands"
          = (sectionOpenTag ++ htmlSeg01 ++ get_training_plans_css ++ htmlSeg02a ++ badgeText ++ htmlSeg03a ++ ("SBT GRVL") ++ htmlSeg04 ++ ("altitude demands") ++ htmlSeg05a ++ stepHeading1 ++ htmlSeg06a ++ stepHeading2 ++ htmlSeg07a ++ deviceListText ++ htmlSeg08a ++ stepHeading3 ++ htmlSeg09a ++ ("SBT GRVL") ++ htmlSeg10 ++ (questionnaire_url "sbt-grvl") ++ htmlSeg11) ++ (ctaText) ++ (htmlSeg12a ++ htmlSeg12b ++ htmlSeg12c ++ htmlSeg12d ++ htmlSeg12e ++ sectionCloseTag) by
        rw [render_eq_raw]; simp [rawHtml, String.append_assoc])
      (strContains_self ctaText)

/-- C3 (counterexample): the Renderer output on ("SBT GRVL", "sbt-grvl",
"altitude demands") does not contain the substring
"SBT GRVL's altitude demands": the template interposes the closing strong tag
between the race name and the challenge text. -/
theorem c3_scenario_substring_counterexample :
    ¬ strContains (generate_training_plans_section "SBT GRVL" "sbt-grvl" "altitude demands")
        "SBT GRVL's altitude demands" := by
  rw [strContains_iff_data, render_eq_raw]
  have hflat : (rawHtml "SBT GRVL" "sbt-grvl" "altitude demands").data = flat c3Parts := by
    simp [rawHtml, get_training_plans_css, questionnaire_url, c3Parts, flat,
      String.data_append, List.append_assoc]
  rw [hflat]
  exact checkAll_sound _ _ (by decide)
